import Mathlib

/-!
Verification development for the conversation fan-out and connection-lifecycle
subsystem of the RealGigaChat backend (src/handlers/chat.rs, src/error.rs,
src/models.rs).

Shallow embedding conventions:
* `Uuid` values are modelled as `Nat`.
* The Supabase gateway is modelled by explicit row lists plus an optional
  gateway-failure value (`Option String`): `none` means the query succeeds and
  returns the filtered rows, `some e` means `execute()` returned `Err(e)`.
* Async handlers become pure functions returning `Except ApiError α`; an
  `Except.error` result models the Rust `?` early return (nothing after the
  failing statement executes).
* `tokio::sync::broadcast` senders are modelled by abstract channel identifiers
  (`Nat`); the registry `HashMap<Uuid, Sender>` becomes an association list.
-/

namespace GigaChat

/-- Error enum from src/error.rs (`ApiError`). -/
inductive ApiError where
  | Database (msg : String)
  | InvalidCredentials
  | Unauthorized
  | BadRequest (msg : String)
  | NotFound (msg : String)
  | Internal (msg : String)
deriving DecidableEq, Repr

/-- Row of the `conversation_members` collection (fields used by chat.rs). -/
structure MemberRow where
  conversation_id : Nat
  user_id : Nat
  role : String
deriving DecidableEq, Repr

/-- Row of the `conversations` collection (fields inserted by chat.rs). -/
structure ConvRow where
  id : Nat
  is_group : Bool
deriving DecidableEq, Repr

/-- Row of the `messages` collection, from src/models.rs (`MessageRow`). -/
structure MessageRow where
  id : Option Int
  conversation_id : Nat
  sender_id : Nat
  content : String
  message_type : Option String
  is_deleted : Option Bool
  created_at : Option String
deriving DecidableEq, Repr

/-- Broadcast payload from src/models.rs (`WsBroadcast`). -/
structure WsBroadcast where
  sender_id : Nat
  content : String
  created_at : String
deriving DecidableEq, Repr

/-! ## Conversation registry (chat.rs lines 23-29 and 244-255)

`ConversationChannels = Arc<RwLock<HashMap<Uuid, broadcast::Sender<_>>>>`.
The map is an association list `conversation id → channel id`; `get_or_create`
is the body of the write-locked block in `handle_socket`:
`map.entry(conversation_id).or_insert_with(|| broadcast::channel(256).0).clone()`.
`fresh` stands for the channel the closure would allocate if the entry is
vacant. -/

/-- Association-list lookup mirroring `HashMap::entry` occupancy for a key. -/
def lookupChannel (m : List (Nat × Nat)) (cid : Nat) : Option Nat
:= (m.find? (fun p => p.1 == cid)).map (fun p => p.2)

/-- The get-or-create step of `handle_socket`: return the existing channel for
`cid`, or insert `fresh` and return it. Runs under the registry write lock in
the source, so it is a single atomic map transformation here. -/
def get_or_create (m : List (Nat × Nat)) (cid : Nat) (fresh : Nat) :
    Nat × List (Nat × Nat) :=
  match m.find? (fun p => p.1 == cid) with
  | some p => (p.2, m)
  | none => (fresh, (cid, fresh) :: m)

/-! ## Membership authority (chat.rs lines 360-393) -/

/-- The double-`eq` filter of the membership query:
`select("conversation_members").eq("conversation_id", cid).eq("user_id", uid)`. -/
def selectMembers (members : List MemberRow) (cid uid : Nat) : List MemberRow :=
  members.filter (fun r => r.conversation_id == cid && r.user_id == uid)

/-- Outcome of `execute()` on the membership query: a gateway failure
(`gatewayErr = some e`) or the filtered rows. -/
def runSelectMembers (gatewayErr : Option String) (members : List MemberRow)
    (cid uid : Nat) : Except String (List MemberRow) :=
  match gatewayErr with
  | some e => Except.error e
  | none => Except.ok (selectMembers members cid uid)

/-- `verify_membership` from chat.rs lines 360-393: a gateway error is mapped
to `ApiError::Database` by `map_err` and propagated with `?`; an empty row set
yields `ApiError::Unauthorized`; otherwise `Ok(())`. -/
def verify_membership (gatewayErr : Option String) (members : List MemberRow)
    (conversation_id user_id : Nat) : Except ApiError Unit :=
  match runSelectMembers gatewayErr members conversation_id user_id with
  | Except.error e => Except.error (ApiError.Database e)
  | Except.ok rows =>
      if rows.isEmpty then Except.error ApiError.Unauthorized
      else Except.ok ()

/-! ## JSON values (model of `serde_json::Value` and `serde_json::from_str`)

The inbound task parses each text frame with
`serde_json::from_str::<serde_json::Value>(&text)` and then reads
`val.get("content").and_then(|c| c.as_str())`. The parser below is a fuel-based
recursive-descent parser for the JSON grammar serde accepts: a single value,
optionally surrounded by whitespace, with the whole input consumed; `\u`
surrogate pairs decode to one character while lone surrogates are errors;
number literals whose magnitude overflows f64 are errors (`NumberOutOfRange`);
and container nesting is bounded by serde's recursion budget of 128. Numbers
are kept as their lexemes (their numeric value is never used by the handler). -/

/-- JSON value tree (`serde_json::Value`; `num` keeps the validated lexeme). -/
inductive Json where
  | null
  | bool (b : Bool)
  | num (lexeme : String)
  | str (s : String)
  | arr (elems : List Json)
  | obj (fields : List (String × Json))
deriving Repr

/-- JSON insignificant whitespace (space, tab, line feed, carriage return). -/
def isJsonWs (c : Char) : Bool :=
  c = ' ' || c = '\t' || c = '\n' || c = '\r'

/-- Skip leading JSON whitespace. -/
def skipWs : List Char → List Char
  | [] => []
  | c :: cs => if isJsonWs c then skipWs cs else c :: cs

/-- Value of one hexadecimal digit. -/
def hexVal (c : Char) : Option Nat :=
  if '0' ≤ c ∧ c ≤ '9' then some (c.toNat - '0'.toNat)
  else if 'a' ≤ c ∧ c ≤ 'f' then some (c.toNat - 'a'.toNat + 10)
  else if 'A' ≤ c ∧ c ≤ 'F' then some (c.toNat - 'A'.toNat + 10)
  else none

/-- Value of a four-hex-digit `\u` escape. -/
def hex4 (a b c d : Char) : Option Nat :=
  match hexVal a, hexVal b, hexVal c, hexVal d with
  | some x, some y, some z, some w => some (((x * 16 + y) * 16 + z) * 16 + w)
  | _, _, _, _ => none

/-- Single-character escape table of JSON strings. -/
def escChar (c : Char) : Option Char :=
  if c = '"' then some '"'
  else if c = '\\' then some '\\'
  else if c = '/' then some '/'
  else if c = 'b' then some (Char.ofNat 8)
  else if c = 'f' then some (Char.ofNat 12)
  else if c = 'n' then some '\n'
  else if c = 'r' then some '\r'
  else if c = 't' then some '\t'
  else none

/-- Parse the body of a JSON string after the opening quote; returns the
decoded string and the remaining input. Control characters must be escaped. A
high-surrogate `\u` escape must be followed immediately by a low-surrogate
`\u` escape and the pair decodes to the single combined scalar, exactly as
serde_json does; a lone surrogate escape (a high surrogate not followed by a
low one, or a bare low surrogate) is rejected. -/
def parseStringBody : List Char → String → Option (String × List Char)
  | [], _ => none
  | '"' :: rest, acc => some (acc, rest)
  | '\\' :: 'u' :: h1 :: h2 :: h3 :: h4 :: rest, acc =>
      (match hex4 h1 h2 h3 h4 with
       | none => none
       | some n =>
           if 0xD800 ≤ n ∧ n ≤ 0xDBFF then
             match rest with
             | '\\' :: 'u' :: g1 :: g2 :: g3 :: g4 :: rest2 =>
                 (match hex4 g1 g2 g3 g4 with
                  | none => none
                  | some m =>
                      if 0xDC00 ≤ m ∧ m ≤ 0xDFFF then
                        parseStringBody rest2 (acc.push (Char.ofNat
                          (0x10000 + (n - 0xD800) * 0x400 + (m - 0xDC00))))
                      else none)
             | _ => none
           else if 0xDC00 ≤ n ∧ n ≤ 0xDFFF then none
           else parseStringBody rest (acc.push (Char.ofNat n)))
  | '\\' :: e :: rest, acc =>
      (match escChar e with
       | none => none
       | some c => parseStringBody rest (acc.push c))
  | c :: rest, acc =>
      if c.toNat < 0x20 then none else parseStringBody rest (acc.push c)

/-- Span of decimal digits at the front of the input. -/
def takeDigits : List Char → List Char × List Char
  | [] => ([], [])
  | c :: cs =>
      if c.isDigit then
        let (ds, rest) := takeDigits cs
        (c :: ds, rest)
      else ([], c :: cs)

/-- Accumulate a decimal digit list into a natural number. -/
def digitsToNat : List Char → Nat → Nat
  | [], acc => acc
  | c :: cs, acc => digitsToNat cs (acc * 10 + (c.toNat - '0'.toNat))

/-- Smallest positive real magnitude that rounds to infinity in IEEE-754
binary64 under round-to-nearest-even: `2^1024 - 2^970`. A decimal literal
overflows f64 exactly when its magnitude is at least this integer. -/
def f64OverflowThreshold : Nat := 2 ^ 1024 - 2 ^ 970

/-- Whether the decimal value `D * 10^E` — with `D` formed from `sigLen`
significand digits, so `D < 10^sigLen` — overflows f64; serde_json then fails
with `NumberOutOfRange`. The two bounding branches keep the exact integer
comparison to small exponents: below them the magnitude is under `10^308`,
above them at least `10^309`. -/
def decOverflowsF64 (D : Nat) (sigLen : Nat) (E : Int) : Bool :=
  if D = 0 then false
  else if (sigLen : Int) + E ≤ 308 then false
  else if 309 ≤ E then true
  else if 0 ≤ E then f64OverflowThreshold ≤ D * 10 ^ E.toNat
  else f64OverflowThreshold * 10 ^ (-E).toNat ≤ D

/-- Parse a JSON number (strict grammar: optional minus, `0` or a nonzero-led
integer part, optional fraction, optional exponent); returns the lexeme. The
decoded magnitude is checked against the f64 overflow threshold, because
serde_json rejects literals that overflow f64 (e.g. `1e999`) with
`NumberOutOfRange`. -/
def parseNumber (cs : List Char) : Option (String × List Char) :=
  let (negPart, afterNeg) :=
    match cs with
    | '-' :: rest => (['-'], rest)
    | _ => (([] : List Char), cs)
  match afterNeg with
  | [] => none
  | c :: rest =>
      if ¬ c.isDigit then none
      else
        let (intDigits, afterInt) :=
          if c = '0' then ([c], rest)
          else
            let (ds, r) := takeDigits rest
            (c :: ds, r)
        let fracStep : Option (List Char × List Char) :=
          match afterInt with
          | '.' :: d :: r =>
              if d.isDigit then
                let (ds, r2) := takeDigits r
                some (d :: ds, r2)
              else none
          | '.' :: [] => none
          | _ => some ([], afterInt)
        match fracStep with
        | none => none
        | some (fracDigits, afterFrac) =>
            let expStep : Option (Bool × List Char × List Char) :=
              match afterFrac with
              | e :: r =>
                  if e = 'e' ∨ e = 'E' then
                    let (expNeg, r2) :=
                      match r with
                      | '+' :: r3 => (false, r3)
                      | '-' :: r3 => (true, r3)
                      | _ => (false, r)
                    match r2 with
                    | d :: r3 =>
                        if d.isDigit then
                          let (ds, r4) := takeDigits r3
                          some (expNeg, d :: ds, r4)
                        else none
                    | [] => none
                  else some (false, [], afterFrac)
              | [] => some (false, [], afterFrac)
            match expStep with
            | none => none
            | some (expNeg, expDigits, afterExp) =>
                let D := digitsToNat (intDigits ++ fracDigits) 0
                let expMag : Nat := digitsToNat expDigits 0
                let E : Int :=
                  (if expNeg then -(expMag : Int) else (expMag : Int))
                    - (fracDigits.length : Int)
                if decOverflowsF64 D (intDigits ++ fracDigits).length E then none
                else
                  let fracLex : List Char :=
                    if fracDigits.isEmpty then [] else '.' :: fracDigits
                  let expLex : List Char :=
                    if expDigits.isEmpty then []
                    else 'e' :: ((if expNeg then ['-'] else ([] : List Char))
                      ++ expDigits)
                  some (String.mk (negPart ++ intDigits ++ fracLex ++ expLex),
                    afterExp)

mutual

/-- Parse one JSON value (after an arbitrary amount of leading whitespace).
`depth` is serde_json's `remaining_depth` recursion budget (initially 128):
entering an array or object decrements it and the parse fails with
`RecursionLimitExceeded` when the decremented budget reaches zero, exactly as
serde's `check_recursion!` does. `fuel` is only a termination measure and is
never the binding constraint. -/
def parseValue : Nat → Nat → List Char → Option (Json × List Char)
  | 0, _, _ => none
  | fuel + 1, depth, cs =>
      match skipWs cs with
      | [] => none
      | 'n' :: 'u' :: 'l' :: 'l' :: rest => some (Json.null, rest)
      | 't' :: 'r' :: 'u' :: 'e' :: rest => some (Json.bool true, rest)
      | 'f' :: 'a' :: 'l' :: 's' :: 'e' :: rest => some (Json.bool false, rest)
      | '"' :: rest =>
          (match parseStringBody rest "" with
           | none => none
           | some (s, r) => some (Json.str s, r))
      | '[' :: rest =>
          if depth - 1 = 0 then none
          else
            (match skipWs rest with
             | ']' :: r => some (Json.arr [], r)
             | r => parseElems fuel (depth - 1) r [])
      | '{' :: rest =>
          if depth - 1 = 0 then none
          else
            (match skipWs rest with
             | '}' :: r => some (Json.obj [], r)
             | r => parseFields fuel (depth - 1) r [])
      | c :: rest =>
          (match parseNumber (c :: rest) with
           | none => none
           | some (lex, r) => some (Json.num lex, r))

/-- Parse the comma-separated elements of a nonempty array, up to the closing
bracket, inside a container whose remaining recursion budget is `depth`. -/
def parseElems : Nat → Nat → List Char → List Json → Option (Json × List Char)
  | 0, _, _, _ => none
  | fuel + 1, depth, cs, acc =>
      match parseValue fuel depth cs with
      | none => none
      | some (v, rest) =>
          match skipWs rest with
          | ',' :: r => parseElems fuel depth r (acc ++ [v])
          | ']' :: r => some (Json.arr (acc ++ [v]), r)
          | _ => none

/-- Parse the comma-separated members of a nonempty object, up to the closing
brace, inside a container whose remaining recursion budget is `depth`. -/
def parseFields : Nat → Nat → List Char → List (String × Json) →
    Option (Json × List Char)
  | 0, _, _, _ => none
  | fuel + 1, depth, cs, acc =>
      match skipWs cs with
      | '"' :: rest =>
          (match parseStringBody rest "" with
           | none => none
           | some (k, r) =>
               match skipWs r with
               | ':' :: r2 =>
                   (match parseValue fuel depth r2 with
                    | none => none
                    | some (v, r3) =>
                        match skipWs r3 with
                        | ',' :: r4 => parseFields fuel depth r4 (acc ++ [(k, v)])
                        | '}' :: r4 => some (Json.obj (acc ++ [(k, v)]), r4)
                        | _ => none)
               | _ => none)
      | _ => none

end

/-- Model of `serde_json::from_str::<serde_json::Value>`: parse one value with
serde's initial recursion budget of 128 and require that only whitespace
follows; `none` models `Err(_)`. -/
def parseJson (s : String) : Option Json :=
  match parseValue (2 * s.length + 2) 128 s.data with
  | none => none
  | some (v, rest) => if skipWs rest = [] then some v else none

/-- A document of `n` nested singleton arrays around `0`, used to exercise
the recursion limit. -/
def deepNesting (n : Nat) : String :=
  String.mk (List.replicate n '[' ++ '0' :: List.replicate n ']')

/-- Model of `Value::get(key)`: on an object, the value stored under `key`
(duplicate keys overwrite earlier ones, hence the last binding wins); `None`
on every other value. -/
def jsonGet (j : Json) (key : String) : Option Json :=
  match j with
  | Json.obj fields => (fields.reverse.find? (fun p => p.1 == key)).map (fun p => p.2)
  | _ => none

/-- Model of `Value::as_str()`. -/
def asStr : Json → Option String
  | Json.str s => some s
  | _ => none

/-! ## Inbound task of `handle_socket` (chat.rs lines 277-329) -/

/-- Content extraction of the recv loop (chat.rs lines 291-300): on a JSON
parse success, use the string under `content` or drop the frame (`continue`);
on a parse failure, use the raw frame text verbatim. `none` means the frame is
dropped with no further processing. -/
def extractContent (text : String) : Option String :=
  match parseJson text with
  | some val =>
      (match (jsonGet val "content").bind asStr with
       | some c => some c
       | none => none)
  | none => some text

/-- Rust `char::is_whitespace` (the Unicode White_Space property). -/
def isRustWhitespace (c : Char) : Bool :=
  let n := c.toNat
  (0x09 ≤ n && n ≤ 0x0D) || n = 0x20 || n = 0x85 || n = 0xA0 || n = 0x1680 ||
  (0x2000 ≤ n && n ≤ 0x200A) || n = 0x2028 || n = 0x2029 || n = 0x202F ||
  n = 0x205F || n = 0x3000

/-- Rust `content.trim().is_empty()`: true exactly when every character of the
string is whitespace (so the trimmed string is empty). -/
def trimIsEmpty (s : String) : Bool :=
  s.data.all isRustWhitespace

/-- A websocket message as tagged by axum (`Message`), restricted to the
variants the recv loop distinguishes. -/
inductive WsMessage where
  | text (t : String)
  | binary
  | ping
  | pong
  | close
deriving DecidableEq, Repr

/-- Outcome of `supabase.insert("messages", ...)`, whose `Result` the recv
loop discards with an underscore binding. -/
inductive InsertOutcome where
  | ok
  | err
deriving DecidableEq, Repr

/-- Outcome of `tx.send(broadcast_msg)`: `noReceivers` is the error case when
nobody is subscribed; the recv loop discards it with an underscore binding. -/
inductive SendOutcome where
  | ok
  | noReceivers
deriving DecidableEq, Repr

/-- Body of the best-effort persistence insert (chat.rs lines 310-315). -/
structure InsertBody where
  conversation_id : Nat
  sender_id : Nat
  content : String
  message_type : String
deriving DecidableEq, Repr

/-- Whether a loop iteration breaks out of the recv loop or proceeds to the
next frame. -/
inductive LoopControl where
  | stop
  | next
deriving DecidableEq, Repr

/-- Observable effects of one recv-loop iteration: loop control, the insert
attempted against the gateway (if any), and the event published onto the
conversation channel (if any). -/
structure FrameEffects where
  control : LoopControl
  persisted : Option InsertBody
  published : Option WsBroadcast
deriving DecidableEq, Repr

/-- One iteration of the recv loop (chat.rs lines 278-328). `frame` is the
result of awaiting the next socket frame (`none` = stream ended,
`Except.error` = read error). `now` is the server clock value
`chrono::Utc::now().to_rfc3339()` captured at this iteration. `insertRes` and
`sendRes` are the outcomes of the gateway insert and the channel send; the
source discards both results, which is why they do not influence the returned
effects — the match on them below records that they are consumed but ignored. -/
def recvStep (conversation_id user_id : Nat) (now : String)
    (frame : Option (Except Unit WsMessage))
    (insertRes : InsertOutcome) (sendRes : SendOutcome) : FrameEffects :=
  match insertRes, sendRes with
  | _, _ =>
    match frame with
    | none => ⟨LoopControl.stop, none, none⟩
    | some (Except.error _) => ⟨LoopControl.stop, none, none⟩
    | some (Except.ok msg) =>
        match msg with
        | WsMessage.close => ⟨LoopControl.stop, none, none⟩
        | WsMessage.binary => ⟨LoopControl.next, none, none⟩
        | WsMessage.ping => ⟨LoopControl.next, none, none⟩
        | WsMessage.pong => ⟨LoopControl.next, none, none⟩
        | WsMessage.text t =>
            match extractContent t with
            | none => ⟨LoopControl.next, none, none⟩
            | some content =>
                if trimIsEmpty content then ⟨LoopControl.next, none, none⟩
                else
                  ⟨LoopControl.next,
                   some ⟨conversation_id, user_id, content, "text"⟩,
                   some ⟨user_id, content, now⟩⟩

/-- Result of a successful `ws_handler`: the upgrade callback is registered,
so `handle_socket` will run with exactly these arguments. An `Except.error`
result means the upgrade is aborted and `handle_socket` never runs — no
session is created and no channel subscription happens. -/
inductive WsHandlerResult where
  | upgrade (conversation_id : Nat) (user_id : Nat)
deriving DecidableEq, Repr

/-- `ws_handler` from chat.rs lines 211-228: resolve the session cookie, verify
membership, then hand the socket to `handle_socket`. `sessionRes` is the
result of `get_session(&cookies)`. -/
def ws_handler (sessionRes : Except ApiError Nat) (conversation_id : Nat)
    (gatewayErr : Option String) (members : List MemberRow) :
    Except ApiError WsHandlerResult :=
  match sessionRes with
  | Except.error e => Except.error e
  | Except.ok user_id =>
      match verify_membership gatewayErr members conversation_id user_id with
      | Except.error e => Except.error e
      | Except.ok _ => Except.ok (WsHandlerResult.upgrade conversation_id user_id)

/-- Sort key of `get_messages_handler`: `created_at.as_deref().unwrap_or("")`. -/
def createdAtKey (m : MessageRow) : String := m.created_at.getD ""

/-- Insertion step of the chronological sort. -/
def insertByCreated (m : MessageRow) : List MessageRow → List MessageRow
  | [] => [m]
  | x :: xs =>
      if createdAtKey m ≤ createdAtKey x then m :: x :: xs
      else x :: insertByCreated m xs

/-- The `sort_by(created_at)` of `get_messages_handler` (insertion sort as the
model of the comparison sort; only the gate-before-read behaviour is claimed). -/
def sortMessages : List MessageRow → List MessageRow
  | [] => []
  | x :: xs => insertByCreated x (sortMessages xs)

/-- The `conversation_id` filter of the message-history query. -/
def selectMessages (messages : List MessageRow) (cid : Nat) : List MessageRow :=
  messages.filter (fun m => m.conversation_id == cid)

/-- `get_messages_handler` from chat.rs lines 166-205: session, membership
gate, then the message query (its own gateway failure is `msgGatewayErr`),
then the chronological sort. -/
def get_messages_handler (sessionRes : Except ApiError Nat)
    (conversation_id : Nat) (gatewayErr : Option String)
    (members : List MemberRow) (msgGatewayErr : Option String)
    (messages : List MessageRow) : Except ApiError (List MessageRow) :=
  match sessionRes with
  | Except.error e => Except.error e
  | Except.ok me =>
      match verify_membership gatewayErr members conversation_id me with
      | Except.error e => Except.error e
      | Except.ok _ =>
          match msgGatewayErr with
          | some e => Except.error (ApiError.Database e)
          | none => Except.ok (sortMessages (selectMessages messages conversation_id))

/-! ## Conversation discovery (chat.rs lines 35-138) -/

/-- Gateway state touched by `start_conversation_handler`: the
`conversations` and `conversation_members` collections. -/
structure Db where
  conversations : List ConvRow
  conversation_members : List MemberRow
deriving DecidableEq, Repr

/-- The single-`eq` filter `select("conversation_members").eq("user_id", uid)`. -/
def selectByUser (members : List MemberRow) (uid : Nat) : List MemberRow :=
  members.filter (fun r => r.user_id == uid)

/-- `extract_conversation_ids` from chat.rs lines 347-357, over structured
rows (in the source the rows are JSON values and unparseable rows are
skipped; the gateway model stores rows already structured). -/
def extract_conversation_ids (rows : List MemberRow) : List Nat :=
  rows.map (fun r => r.conversation_id)

/-- `start_conversation_handler` from chat.rs lines 35-138, on the
success path of the gateway calls (each gateway failure would surface as
`ApiError::Database` via `map_err` and `?`). `me` is the session user,
`freshConv` models `Uuid::new_v4()`. Returns the conversation id of the
response together with the updated gateway state. -/
def start_conversation_handler (me friend_id : Nat) (freshConv : Nat)
    (db : Db) : Except ApiError (Nat × Db) :=
  if me == friend_id then
    Except.error (ApiError.BadRequest "Cannot start a conversation with yourself")
  else
    let my_ids := extract_conversation_ids (selectByUser db.conversation_members me)
    let friend_ids :=
      extract_conversation_ids (selectByUser db.conversation_members friend_id)
    match my_ids.find? (fun cid => friend_ids.contains cid) with
    | some cid => Except.ok (cid, db)
    | none =>
        Except.ok (freshConv,
          { conversations := db.conversations ++ [⟨freshConv, false⟩],
            conversation_members := db.conversation_members ++
              [⟨freshConv, me, "member"⟩, ⟨freshConv, friend_id, "member"⟩] })

/-! ## Theorems -/

/-- C1: Registry invariant — `get_or_create` returns the existing channel for
an id (leaving the map unchanged), or atomically inserts a new one; it never
removes or replaces an existing entry; a repeated call for the same id returns
the same channel with no further change; and key uniqueness is preserved, so
at most one channel exists per conversation id. -/
theorem registry_get_or_create (m : List (Nat × Nat)) (cid fresh : Nat) :
    (∀ ch, lookupChannel m cid = some ch → get_or_create m cid fresh = (ch, m))
  ∧ (lookupChannel m cid = none →
      get_or_create m cid fresh = (fresh, (cid, fresh) :: m)
      ∧ lookupChannel ((cid, fresh) :: m) cid = some fresh)
  ∧ (∀ c' ch', lookupChannel m c' = some ch' →
      lookupChannel (get_or_create m cid fresh).2 c' = some ch')
  ∧ (∀ f2, get_or_create (get_or_create m cid fresh).2 cid f2
      = ((get_or_create m cid fresh).1, (get_or_create m cid fresh).2))
  ∧ ((m.map Prod.fst).Nodup → ((get_or_create m cid fresh).2.map Prod.fst).Nodup) := by
  cases h : m.find? (fun p => p.1 == cid) with
  | some p =>
      refine ⟨?_, ?_, ?_, ?_, ?_⟩
      · intro ch hch
        simp [lookupChannel, h] at hch
        simp [get_or_create, h, hch]
      · intro hnone
        simp [lookupChannel, h] at hnone
      · intro c' ch' hc'
        simp [get_or_create, h]
        simpa [lookupChannel] using hc'
      · intro f2
        simp [get_or_create, h]
      · intro hnd
        simpa [get_or_create, h] using hnd
  | none =>
      have hall := List.find?_eq_none.mp h
      refine ⟨?_, ?_, ?_, ?_, ?_⟩
      · intro ch hch
        simp [lookupChannel, h] at hch
      · intro _
        constructor
        · simp [get_or_create, h]
        · simp [lookupChannel, List.find?_cons_of_pos]
      · intro c' ch' hc'
        cases hq : m.find? (fun p => p.1 == c') with
        | none => simp [lookupChannel, hq] at hc'
        | some q =>
            have hq2 : q.2 = ch' := by simpa [lookupChannel, hq] using hc'
            have hq1 : q.1 = c' := by simpa using List.find?_some hq
            have hqmem : q ∈ m := List.mem_of_find?_eq_some hq
            have hqcid : ¬ q.1 = cid := by simpa using hall q hqmem
            have hne : ((cid, fresh).1 == c') = false := by
              simp only [beq_eq_false_iff_ne, ne_eq]
              intro hcc
              exact hqcid (hq1.trans hcc.symm)
            simp only [get_or_create, h, lookupChannel]
            rw [List.find?_cons_of_neg _ (by simp [hne])]
            simp [hq, hq2]
      · intro f2
        simp [get_or_create, h, List.find?_cons_of_pos]
      · intro hnd
        have hnotmem : cid ∉ m.map Prod.fst := by
          intro hmem
          obtain ⟨p, hp, hp1⟩ := List.mem_map.mp hmem
          exact hall p hp (by simp [hp1])
        simp only [get_or_create, h, List.map_cons, List.nodup_cons]
        exact ⟨hnotmem, hnd⟩

/-- Witness for C1 at a concrete registry: id 1 already has channel 10, so
`get_or_create` returns channel 10 and leaves the map unchanged. -/
theorem registry_get_or_create_witness :
    get_or_create [(1, 10)] 1 99 = (10, [(1, 10)]) :=
  (registry_get_or_create [(1, 10)] 1 99).1 10 rfl

/-- C2: Membership gate — when the membership query returns no row, both the
websocket upgrade and the message-history read fail with `Unauthorized` before
any further effect (no upgrade is registered, so `handle_socket` never runs
and no channel subscription happens; no messages are read); when a membership
row exists, the gate passes and the upgrade is registered for exactly this
conversation and user. -/
theorem membership_gate (uid cid : Nat) (members : List MemberRow)
    (msgGatewayErr : Option String) (messages : List MessageRow) :
    (selectMembers members cid uid = [] →
        ws_handler (Except.ok uid) cid none members
          = Except.error ApiError.Unauthorized
      ∧ get_messages_handler (Except.ok uid) cid none members msgGatewayErr messages
          = Except.error ApiError.Unauthorized)
  ∧ (selectMembers members cid uid ≠ [] →
        ws_handler (Except.ok uid) cid none members
          = Except.ok (WsHandlerResult.upgrade cid uid)
      ∧ get_messages_handler (Except.ok uid) cid none members none messages
          = Except.ok (sortMessages (selectMessages messages cid))) := by
  constructor
  · intro hempty
    constructor
    · simp [ws_handler, verify_membership, runSelectMembers, hempty]
    · simp [get_messages_handler, verify_membership, runSelectMembers, hempty]
  · intro hne
    constructor
    · simp [ws_handler, verify_membership, runSelectMembers,
        List.isEmpty_iff, hne]
    · simp [get_messages_handler, verify_membership, runSelectMembers,
        List.isEmpty_iff, hne]

/-- Witness for C2: with no membership rows at all, the upgrade and the
history read for conversation 5 and user 7 are both rejected. -/
theorem membership_gate_witness :
    ws_handler (Except.ok 7) 5 none [] = Except.error ApiError.Unauthorized
  ∧ get_messages_handler (Except.ok 7) 5 none [] none []
      = Except.error ApiError.Unauthorized :=
  (membership_gate 7 5 [] none []).1 rfl

/-- C6 counterexample: on a gateway query failure, `verify_membership`
returns `ApiError::Database`, which is a distinct outcome from the
`ApiError::Unauthorized` produced by an empty query result — the claim that a
query error yields the same Unauthorized outcome is false at this input. -/
theorem fail_closed_counterexample :
    verify_membership (some "connection reset") [] 1 2
      = Except.error (ApiError.Database "connection reset")
  ∧ verify_membership (some "connection reset") [] 1 2
      ≠ Except.error ApiError.Unauthorized
  ∧ verify_membership none [] 1 2 = Except.error ApiError.Unauthorized := by
  refine ⟨rfl, ?_, rfl⟩
  intro hcontra
  simp [verify_membership, runSelectMembers] at hcontra

/-- C6 amended: on a gateway query failure the membership check still denies
access — it never returns `Ok` — but the outcome is a `Database` data-access
error carrying the gateway message, not the `Unauthorized` outcome of an
empty result. -/
theorem fail_closed_amended (e : String) (members : List MemberRow)
    (cid uid : Nat) :
    verify_membership (some e) members cid uid
      = Except.error (ApiError.Database e)
  ∧ ∀ u, verify_membership (some e) members cid uid ≠ Except.ok u := by
  refine ⟨rfl, ?_⟩
  intro u hcontra
  simp [verify_membership, runSelectMembers] at hcontra

set_option maxRecDepth 16384 in
/-- C3: Inbound text-frame interpretation — a frame that parses as JSON with a
string `content` field that is not all-whitespace yields exactly that content
as the event content (and as the persisted content); a frame that fails to
parse as JSON yields the raw frame text verbatim; content that trims to empty
drops the frame with no event and no persistence attempt; and concretely, the
frame holding the object with content `hello` and the bare frame `hello` both
yield an event with content `hello`, while the object with blank content and
the empty frame yield nothing. Included are the frames sitting on the
serde_json acceptance boundary: an object whose content is a `\u`
surrogate-pair escape parses structurally and yields the decoded astral
character, while the frames `1e999` (a number literal overflowing f64) and a
document nested past serde's recursion budget of 128 are parse failures and
are published raw. -/
theorem frame_interpretation (cid uid : Nat) (now : String)
    (i : InsertOutcome) (s : SendOutcome) :
    (∀ t v c, parseJson t = some v → (jsonGet v "content").bind asStr = some c →
        trimIsEmpty c = false →
        recvStep cid uid now (some (Except.ok (WsMessage.text t))) i s
          = ⟨LoopControl.next, some ⟨cid, uid, c, "text"⟩, some ⟨uid, c, now⟩⟩)
  ∧ (∀ t, parseJson t = none → trimIsEmpty t = false →
        recvStep cid uid now (some (Except.ok (WsMessage.text t))) i s
          = ⟨LoopControl.next, some ⟨cid, uid, t, "text"⟩, some ⟨uid, t, now⟩⟩)
  ∧ (∀ t c, extractContent t = some c → trimIsEmpty c = true →
        recvStep cid uid now (some (Except.ok (WsMessage.text t))) i s
          = ⟨LoopControl.next, none, none⟩)
  ∧ (recvStep cid uid now
        (some (Except.ok (WsMessage.text "\x7b\"content\": \"hello\"\x7d"))) i s).published
      = some ⟨uid, "hello", now⟩
  ∧ (recvStep cid uid now (some (Except.ok (WsMessage.text "hello"))) i s).published
      = some ⟨uid, "hello", now⟩
  ∧ recvStep cid uid now
        (some (Except.ok (WsMessage.text "\x7b\"content\": \"   \"\x7d"))) i s
      = ⟨LoopControl.next, none, none⟩
  ∧ recvStep cid uid now (some (Except.ok (WsMessage.text ""))) i s
      = ⟨LoopControl.next, none, none⟩
  ∧ (recvStep cid uid now
        (some (Except.ok (WsMessage.text
          "\x7b\"content\":\"\\uD83D\\uDE00\"\x7d"))) i s).published
      = some ⟨uid, String.mk [Char.ofNat 0x1F600], now⟩
  ∧ (recvStep cid uid now (some (Except.ok (WsMessage.text "1e999"))) i s).published
      = some ⟨uid, "1e999", now⟩
  ∧ (recvStep cid uid now
        (some (Except.ok (WsMessage.text (deepNesting 128)))) i s).published
      = some ⟨uid, deepNesting 128, now⟩ := by
  refine ⟨?_, ?_, ?_, ?_, ?_, ?_, ?_, ?_, ?_, ?_⟩
  · intro t v c hparse hget htrim
    cases i <;> cases s <;> simp [recvStep, extractContent, hparse, hget, htrim]
  · intro t hparse htrim
    cases i <;> cases s <;> simp [recvStep, extractContent, hparse, htrim]
  · intro t c hextract htrim
    cases i <;> cases s <;> simp [recvStep, hextract, htrim]
  · cases i <;> cases s <;> rfl
  · cases i <;> cases s <;> rfl
  · cases i <;> cases s <;> rfl
  · cases i <;> cases s <;> rfl
  · cases i <;> cases s <;> rfl
  · cases i <;> cases s <;> rfl
  · cases i <;> cases s <;> rfl

/-- Witness for C3: the non-JSON frame `hi` produces an event carrying `hi`
verbatim. -/
theorem frame_interpretation_witness :
    recvStep 1 2 "T" (some (Except.ok (WsMessage.text "hi")))
        InsertOutcome.ok SendOutcome.ok
      = ⟨LoopControl.next, some ⟨1, 2, "hi", "text"⟩, some ⟨2, "hi", "T"⟩⟩ :=
  (frame_interpretation 1 2 "T" InsertOutcome.ok SendOutcome.ok).2.1 "hi" rfl rfl

set_option maxRecDepth 16384 in
/-- C10: A text frame that is valid JSON but has no string-valued `content`
field is silently dropped — no event, no persistence attempt — and the
raw-text fallback does not apply; concretely so for a bare number, a JSON
string literal, an object without `content`, an object whose `content` is a
number, a string literal decoded from a `\u` surrogate-pair escape (which
serde_json accepts), and a document nested to depth 127, just inside
serde_json's recursion budget. -/
theorem json_without_content_dropped (cid uid : Nat) (now : String)
    (i : InsertOutcome) (s : SendOutcome) :
    (∀ t v, parseJson t = some v → (jsonGet v "content").bind asStr = none →
        recvStep cid uid now (some (Except.ok (WsMessage.text t))) i s
          = ⟨LoopControl.next, none, none⟩)
  ∧ recvStep cid uid now (some (Except.ok (WsMessage.text "5"))) i s
      = ⟨LoopControl.next, none, none⟩
  ∧ recvStep cid uid now (some (Except.ok (WsMessage.text "\"hello\""))) i s
      = ⟨LoopControl.next, none, none⟩
  ∧ recvStep cid uid now (some (Except.ok (WsMessage.text "\x7b\"a\":1\x7d"))) i s
      = ⟨LoopControl.next, none, none⟩
  ∧ recvStep cid uid now
        (some (Except.ok (WsMessage.text "\x7b\"content\": 5\x7d"))) i s
      = ⟨LoopControl.next, none, none⟩
  ∧ recvStep cid uid now
        (some (Except.ok (WsMessage.text "\"\\uD834\\uDD1E\""))) i s
      = ⟨LoopControl.next, none, none⟩
  ∧ recvStep cid uid now
        (some (Except.ok (WsMessage.text (deepNesting 127)))) i s
      = ⟨LoopControl.next, none, none⟩ := by
  refine ⟨?_, ?_, ?_, ?_, ?_, ?_, ?_⟩
  · intro t v hparse hget
    cases i <;> cases s <;> simp [recvStep, extractContent, hparse, hget]
  · cases i <;> cases s <;> rfl
  · cases i <;> cases s <;> rfl
  · cases i <;> cases s <;> rfl
  · cases i <;> cases s <;> rfl
  · cases i <;> cases s <;> rfl
  · cases i <;> cases s <;> rfl

/-- Witness for C10: the frame `null` is valid JSON without a `content`
field and is dropped. -/
theorem json_without_content_dropped_witness :
    recvStep 1 2 "T" (some (Except.ok (WsMessage.text "null")))
        InsertOutcome.ok SendOutcome.ok
      = ⟨LoopControl.next, none, none⟩ :=
  (json_without_content_dropped 1 2 "T" InsertOutcome.ok SendOutcome.ok).1
    "null" Json.null rfl rfl

/-- C4: Persistence-failure isolation — the effects of a recv-loop iteration
are identical whether the gateway insert failed or succeeded (the session is
not terminated and the broadcast is unchanged), and for every accepted
non-blank message the event is still published and the loop continues even
when the insert failed. -/
theorem persistence_failure_isolated (cid uid : Nat) (now : String)
    (frame : Option (Except Unit WsMessage)) (s : SendOutcome) :
    recvStep cid uid now frame InsertOutcome.err s
      = recvStep cid uid now frame InsertOutcome.ok s
  ∧ (∀ t c, extractContent t = some c → trimIsEmpty c = false →
      (recvStep cid uid now (some (Except.ok (WsMessage.text t)))
          InsertOutcome.err s).published = some ⟨uid, c, now⟩
      ∧ (recvStep cid uid now (some (Except.ok (WsMessage.text t)))
          InsertOutcome.err s).control = LoopControl.next) := by
  constructor
  · rfl
  · intro t c hextract htrim
    cases s <;> simp [recvStep, hextract, htrim]

/-- Witness for C4: with a failed insert, the frame `hi` is still published
and the loop continues. -/
theorem persistence_failure_isolated_witness :
    (recvStep 1 2 "T" (some (Except.ok (WsMessage.text "hi")))
        InsertOutcome.err SendOutcome.ok).published = some ⟨2, "hi", "T"⟩
  ∧ (recvStep 1 2 "T" (some (Except.ok (WsMessage.text "hi")))
        InsertOutcome.err SendOutcome.ok).control = LoopControl.next :=
  (persistence_failure_isolated 1 2 "T"
      (some (Except.ok (WsMessage.text "hi"))) SendOutcome.ok).2 "hi" "hi" rfl rfl

/-- C7: Broadcast event metadata is server-controlled — every published event
carries the session's authenticated user id as sender and the server clock
value captured at publish time as timestamp, and two frames from which the
same content is extracted produce identical effects, so no frame field other
than `content` influences the event. -/
theorem event_metadata_server_controlled (cid uid : Nat) (now : String)
    (frame : Option (Except Unit WsMessage)) (i : InsertOutcome)
    (s : SendOutcome) :
    (∀ ev, (recvStep cid uid now frame i s).published = some ev →
        ev.sender_id = uid ∧ ev.created_at = now)
  ∧ (∀ t1 t2, extractContent t1 = extractContent t2 →
      recvStep cid uid now (some (Except.ok (WsMessage.text t1))) i s
        = recvStep cid uid now (some (Except.ok (WsMessage.text t2))) i s) := by
  constructor
  · intro ev hev
    cases frame with
    | none => simp [recvStep] at hev
    | some r =>
        cases r with
        | error e => simp [recvStep] at hev
        | ok msg =>
            cases msg with
            | text t =>
                cases hextract : extractContent t with
                | none => simp [recvStep, hextract] at hev
                | some content =>
                    by_cases htrim : trimIsEmpty content = true
                    · simp [recvStep, hextract, htrim] at hev
                    · simp [recvStep, hextract, htrim] at hev
                      exact ⟨by simp [← hev], by simp [← hev]⟩
            | binary => simp [recvStep] at hev
            | ping => simp [recvStep] at hev
            | pong => simp [recvStep] at hev
            | close => simp [recvStep] at hev
  · intro t1 t2 hsame
    simp [recvStep, hsame]

/-- Witness for C7: the event for the frame `x` carries sender 2 and
timestamp `T`. -/
theorem event_metadata_server_controlled_witness :
    (2 : Nat) = 2 ∧ "T" = "T" :=
  (event_metadata_server_controlled 1 2 "T"
      (some (Except.ok (WsMessage.text "x"))) InsertOutcome.ok SendOutcome.ok).1
    ⟨2, "x", "T"⟩ rfl

/-- C8: Zero-subscriber publish is harmless — the effects of a recv-loop
iteration are identical whether the channel send failed for lack of receivers
or succeeded, and after any text frame the loop proceeds to the next frame
even when nobody was subscribed. -/
theorem zero_subscriber_send_harmless (cid uid : Nat) (now : String)
    (frame : Option (Except Unit WsMessage)) (i : InsertOutcome) (t : String) :
    recvStep cid uid now frame i SendOutcome.noReceivers
      = recvStep cid uid now frame i SendOutcome.ok
  ∧ (recvStep cid uid now (some (Except.ok (WsMessage.text t))) i
      SendOutcome.noReceivers).control = LoopControl.next := by
  constructor
  · rfl
  · cases hextract : extractContent t with
    | none => simp [recvStep, hextract]
    | some content =>
        by_cases htrim : trimIsEmpty content = true <;>
          simp [recvStep, hextract, htrim]

/-- C5: `find_or_create_direct_conversation` contract — the handler rejects
`me = friend` with a bad-request error; when the two membership-id sets share
a conversation id it returns the first common id and creates nothing (the
gateway state is unchanged); when they share none it creates exactly one
conversation row and two membership rows (one per user) and returns the fresh
id; and a second call with the same pair on the resulting state returns that
same id and creates nothing further. -/
theorem find_or_create_direct_conversation (me friend fresh : Nat) (db : Db) :
    (me = friend →
        start_conversation_handler me friend fresh db
          = Except.error (ApiError.BadRequest "Cannot start a conversation with yourself"))
  ∧ (∀ cid, me ≠ friend →
      (extract_conversation_ids (selectByUser db.conversation_members me)).find?
          (fun c => (extract_conversation_ids
            (selectByUser db.conversation_members friend)).contains c) = some cid →
      start_conversation_handler me friend fresh db = Except.ok (cid, db))
  ∧ (me ≠ friend →
      (extract_conversation_ids (selectByUser db.conversation_members me)).find?
          (fun c => (extract_conversation_ids
            (selectByUser db.conversation_members friend)).contains c) = none →
      start_conversation_handler me friend fresh db
        = Except.ok (fresh,
            ⟨db.conversations ++ [⟨fresh, false⟩],
             db.conversation_members ++
               [⟨fresh, me, "member"⟩, ⟨fresh, friend, "member"⟩]⟩)
      ∧ (∀ fresh2,
          fresh ∉ extract_conversation_ids (selectByUser db.conversation_members me) →
          start_conversation_handler me friend fresh2
              ⟨db.conversations ++ [⟨fresh, false⟩],
               db.conversation_members ++
                 [⟨fresh, me, "member"⟩, ⟨fresh, friend, "member"⟩]⟩
            = Except.ok (fresh,
                ⟨db.conversations ++ [⟨fresh, false⟩],
                 db.conversation_members ++
                   [⟨fresh, me, "member"⟩, ⟨fresh, friend, "member"⟩]⟩))) := by
  refine ⟨?_, ?_, ?_⟩
  · intro h
    simp [start_conversation_handler, h]
  · intro cid hne hfind
    simp only [start_conversation_handler]
    rw [if_neg (by simp [hne]), hfind]
  · intro hne hfind
    have hfm : (friend == me) = false := by
      simpa using fun h => hne h.symm
    constructor
    · simp only [start_conversation_handler]
      rw [if_neg (by simp [hne]), hfind]
    · intro fresh2 hfreshA
      have hallA := List.find?_eq_none.mp hfind
      have hExtme : extract_conversation_ids (selectByUser
            (db.conversation_members ++
              [⟨fresh, me, "member"⟩, ⟨fresh, friend, "member"⟩]) me)
          = extract_conversation_ids (selectByUser db.conversation_members me)
              ++ [fresh] := by
        simp [selectByUser, extract_conversation_ids, List.filter_append, hfm]
      have hExtfr : extract_conversation_ids (selectByUser
            (db.conversation_members ++
              [⟨fresh, me, "member"⟩, ⟨fresh, friend, "member"⟩]) friend)
          = extract_conversation_ids (selectByUser db.conversation_members friend)
              ++ [fresh] := by
        simp [selectByUser, extract_conversation_ids, List.filter_append,
          (by simpa using hne : (me == friend) = false)]
      have hfind' : (extract_conversation_ids
            (selectByUser db.conversation_members me) ++ [fresh]).find?
          (fun c => ((extract_conversation_ids
            (selectByUser db.conversation_members friend)) ++ [fresh]).contains c)
          = some fresh := by
        rw [List.find?_append]
        have h1 : (extract_conversation_ids
              (selectByUser db.conversation_members me)).find?
            (fun c => ((extract_conversation_ids
              (selectByUser db.conversation_members friend)) ++ [fresh]).contains c)
            = none := by
          rw [List.find?_eq_none]
          intro c hc
          have hcB := hallA c hc
          have hcfresh : ¬ c = fresh := fun h => hfreshA (h ▸ hc)
          simp at hcB ⊢
          exact ⟨hcB, hcfresh⟩
        rw [h1]
        simp
      simp only [start_conversation_handler]
      rw [if_neg (by simp [hne]), hExtme, hExtfr, hfind']

/-- Witness for C5 at a concrete state: users 1 and 2 with no prior
conversation — one conversation row and two membership rows are created and
the fresh id 50 is returned. -/
theorem find_or_create_direct_conversation_witness :
    start_conversation_handler 1 2 50 ⟨[], []⟩
      = Except.ok (50, ⟨[⟨50, false⟩],
          [⟨50, 1, "member"⟩, ⟨50, 2, "member"⟩]⟩) :=
  ((find_or_create_direct_conversation 1 2 50 ⟨[], []⟩).2.2
    (by decide) rfl).1

end GigaChat
